import Mathlib

/-!
Verification of the smart-commute decision engine.

Shallow embedding of the Python sources:
  * `smart_commute.py` — `SmartCommuteAssistant.check_traffic_and_notify`
    (the notification branch ladder) and
    `SmartCommuteAssistant._check_if_in_monitoring_window` (the midnight reset).
  * `traffic_monitor.py` — `TrafficMonitor.get_route_with_traffic`,
    `TrafficMonitor._parse_route_data`, `TrafficMonitor.calculate_departure_time`,
    `TrafficMonitor.analyze_traffic`.

Wall-clock timestamps are modelled as rational seconds since an epoch;
`datetime.replace(hour=h, minute=m, second=0, microsecond=0)` becomes
"floor to the start of the day, then add h hours and m minutes".
Python exceptions that can escape a function are modelled with `Except`.
-/

namespace SmartCommute

/-- A notification intent produced by one poll tick. -/
inductive Notification
  | departureAlert
  | earlyWarning
  | lateWarning
  deriving DecidableEq, Repr

/-- The mutable per-day state of `SmartCommuteAssistant`:
`self.notification_sent_today` and `self.last_notification_time`. -/
structure AppState where
  notification_sent_today : Bool
  last_notification_time : Option ℚ
  deriving DecidableEq, Repr

set_option linter.unusedVariables false in
/-- The notification branch ladder of
`SmartCommuteAssistant.check_traffic_and_notify` (smart_commute.py lines 86-115),
given the already-computed `time_until_departure` (in minutes, a real-valued
quantity in the source), the sample's `traffic_ratio`, the configured
`heavy_traffic_threshold`, and `current_time`.

`delivery_ok` is the outcome of the Telegram delivery
(`TelegramCommuteBot.send_notification` returns `True` on success and `False`
on a caught exception); the source ignores that return value, which the
unused binder reproduces. -/
def check_traffic_and_notify (delivery_ok : Bool)
    (time_until_departure traffic_ratio heavy_traffic_threshold current_time : ℚ)
    (s : AppState) : Option Notification × AppState :=
  if 0 ≤ time_until_departure ∧ time_until_departure ≤ 5 ∧
      s.notification_sent_today = false then
    (some .departureAlert,
      { notification_sent_today := true,
        last_notification_time := some current_time })
  else if heavy_traffic_threshold ≤ traffic_ratio ∧
      5 < time_until_departure ∧ time_until_departure ≤ 20 ∧
      s.notification_sent_today = false then
    -- the source does not set notification_sent_today in this branch
    (some .earlyWarning, s)
  else if 30 < time_until_departure then
    (none, s)
  else if time_until_departure < 0 then
    if s.notification_sent_today = false then
      (some .lateWarning, { s with notification_sent_today := true })
    else
      (none, s)
  else
    (none, s)

/-- The inputs of one admitted poll tick of `check_traffic_and_notify`. -/
structure Tick where
  delivery_ok : Bool
  time_until_departure : ℚ
  traffic_ratio : ℚ
  heavy_traffic_threshold : ℚ
  current_time : ℚ
  deriving DecidableEq, Repr

/-- Run a sequence of admitted poll ticks, collecting the emitted
notifications in order. -/
def runTicks : List Tick → AppState → List Notification × AppState
  | [], s => ([], s)
  | tk :: rest, s =>
    let r := check_traffic_and_notify tk.delivery_ok tk.time_until_departure
      tk.traffic_ratio tk.heavy_traffic_threshold tk.current_time s
    let rr := runTicks rest r.2
    (r.1.toList ++ rr.1, rr.2)

/-- Number of DepartureAlert plus LateWarning emissions in a list of
emitted notifications. -/
def countDepartureOrLate (l : List Notification) : ℕ :=
  (l.filter (fun n =>
    n = Notification.departureAlert ∨ n = Notification.lateWarning)).length

/-- The midnight reset in `SmartCommuteAssistant._check_if_in_monitoring_window`
(smart_commute.py lines 161-163): `if now.hour == 0 and now.minute < 5:
self.notification_sent_today = False`. -/
def maybeReset (now_hour now_minute : ℕ) (s : AppState) : AppState :=
  if now_hour = 0 ∧ now_minute < 5 then
    { s with notification_sent_today := false }
  else
    s

/-- If the daily flag is already up, no branch of the ladder emits anything
and the state is untouched. -/
lemma check_flag_true (ok : Bool) (t r th c : ℚ) (s : AppState)
    (h : s.notification_sent_today = true) :
    (check_traffic_and_notify ok t r th c s).1 = none ∧
    (check_traffic_and_notify ok t r th c s).2 = s := by
  unfold check_traffic_and_notify
  split_ifs <;> simp_all

/-- From a flag-down state, one tick either emits a DepartureAlert or a
LateWarning and raises the flag, or emits no such notification and leaves the
flag down. -/
lemma check_step (ok : Bool) (t r th c : ℚ) (s : AppState)
    (h : s.notification_sent_today = false) :
    (countDepartureOrLate
          (check_traffic_and_notify ok t r th c s).1.toList = 1 ∧
        (check_traffic_and_notify ok t r th c s).2.notification_sent_today
          = true) ∨
      (countDepartureOrLate
          (check_traffic_and_notify ok t r th c s).1.toList = 0 ∧
        (check_traffic_and_notify ok t r th c s).2.notification_sent_today
          = false) := by
  unfold check_traffic_and_notify
  split_ifs <;>
    simp_all [countDepartureOrLate]

/-- `countDepartureOrLate` is additive over list append. -/
lemma countDepartureOrLate_append (l₁ l₂ : List Notification) :
    countDepartureOrLate (l₁ ++ l₂) =
      countDepartureOrLate l₁ + countDepartureOrLate l₂ := by
  simp [countDepartureOrLate, List.filter_append]

/-- Once the daily flag is up, a whole run of ticks emits no DepartureAlert
and no LateWarning. -/
lemma runTicks_flag_true (ticks : List Tick) (s : AppState)
    (h : s.notification_sent_today = true) :
    countDepartureOrLate (runTicks ticks s).1 = 0 := by
  induction ticks generalizing s with
  | nil => simp [runTicks, countDepartureOrLate]
  | cons tk rest ih =>
    obtain ⟨h1, h2⟩ := check_flag_true tk.delivery_ok tk.time_until_departure
      tk.traffic_ratio tk.heavy_traffic_threshold tk.current_time s h
    simp only [runTicks, countDepartureOrLate_append, h1, h2]
    rw [ih s h]
    simp [countDepartureOrLate]

/-- From a flag-down state, a whole run of ticks emits at most one
DepartureAlert-or-LateWarning. -/
lemma runTicks_flag_false (ticks : List Tick) (s : AppState)
    (h : s.notification_sent_today = false) :
    countDepartureOrLate (runTicks ticks s).1 ≤ 1 := by
  induction ticks generalizing s with
  | nil => simp [runTicks, countDepartureOrLate]
  | cons tk rest ih =>
    rcases check_step tk.delivery_ok tk.time_until_departure tk.traffic_ratio
        tk.heavy_traffic_threshold tk.current_time s h with
      ⟨hc, hf⟩ | ⟨hc, hf⟩ <;>
      simp only [runTicks, countDepartureOrLate_append, hc]
    · have := runTicks_flag_true rest _ hf
      omega
    · have := ih _ hf
      omega

end SmartCommute

namespace TrafficMonitor

/-- One leg of a directions-provider route:
`{duration: {value}, duration_in_traffic?: {value}, distance: {value},
start_address, end_address}` (durations in seconds, distance in meters).
`duration_in_traffic` is optional in the upstream response. -/
structure Leg where
  duration : ℕ
  duration_in_traffic : Option ℕ
  distance : ℕ
  start_address : String
  end_address : String
  deriving DecidableEq, Repr

/-- One route of the response: `{summary, legs: [...]}`. -/
structure Route where
  summary : String
  legs : List Leg
  deriving DecidableEq, Repr

/-- The decoded JSON body of a directions-provider response:
`{status, routes: [...], error_message?}`. -/
structure ApiResponse where
  status : String
  routes : List Route
  error_message : Option String
  deriving DecidableEq, Repr

/-- A Python exception that escapes `_parse_route_data`: `data["routes"][0]`
or `legs[0]` on an empty list raises `IndexError`;
`total_duration_traffic / total_duration` with a zero divisor raises
`ZeroDivisionError`.  Neither is a `requests.exceptions.RequestException`,
so neither is caught by `get_route_with_traffic`. -/
inductive PyError
  | indexError
  | zeroDivisionError
  deriving DecidableEq, Repr

/-- One entry of the parsed `waypoints` list:
`{address, duration_to_next, distance_to_next}`. -/
structure Stop where
  address : String
  duration_to_next : ℕ
  distance_to_next : ℕ
  deriving DecidableEq, Repr

/-- The dictionary returned by `TrafficMonitor._parse_route_data`.
The purely cosmetic `distance_text` field (float string formatting in
`_meters_to_text`) is omitted; no claim concerns it. -/
structure RouteData where
  total_duration : ℕ
  total_duration_traffic : ℕ
  total_distance : ℕ
  summary : String
  waypoints : List Stop
  start_address : String
  end_address : String
  traffic_ratio : ℚ
  deriving DecidableEq, Repr

/-- The stops loop of `_parse_route_data` (traffic_monitor.py lines 69-78):
`for i, leg in enumerate(legs[:-1])` appends one stop per leg except the
last, with `address = waypoints[i] if i < len(waypoints) else "Unknown"`. -/
def parseStops (wps : List String) (legs : List Leg) : List Stop :=
  legs.dropLast.enum.map (fun p =>
    { address := wps.getD p.1 "Unknown",
      duration_to_next := p.2.duration,
      distance_to_next := p.2.distance })

/-- `TrafficMonitor._parse_route_data` (traffic_monitor.py lines 56-90).
Evaluation order of the Python dict literal matters for which exception
escapes: `start_address = legs[0]["start_address"]` (IndexError on empty
legs) is evaluated before `traffic_ratio = total_duration_traffic /
total_duration` (ZeroDivisionError on a zero base duration).
An empty or absent waypoint list (`if waypoints:` falsy) yields no stops. -/
def _parse_route_data (data : ApiResponse) (waypoints : Option (List String)) :
    Except PyError RouteData :=
  match data.routes with
  | [] => .error .indexError
  | route :: _ =>
    let legs := route.legs
    let total_duration := (legs.map Leg.duration).sum
    let total_duration_traffic :=
      (legs.map (fun leg => leg.duration_in_traffic.getD leg.duration)).sum
    let total_distance := (legs.map Leg.distance).sum
    let stops :=
      match waypoints with
      | none => []
      | some [] => []
      | some wps => parseStops wps legs
    match legs with
    | [] => .error .indexError
    | l0 :: rest =>
      if total_duration = 0 then
        .error .zeroDivisionError
      else
        .ok { total_duration := total_duration
              total_duration_traffic := total_duration_traffic
              total_distance := total_distance
              summary := route.summary
              waypoints := stops
              start_address := l0.start_address
              end_address := (rest.getLastD l0).end_address
              traffic_ratio :=
                (total_duration_traffic : ℚ) / (total_duration : ℚ) }

/-- Outcome of the HTTP round trip in `get_route_with_traffic`:
either a `requests.exceptions.RequestException` (network failure, non-2xx
`raise_for_status`, body decoding failure) or a decoded JSON body. -/
inductive HttpResult
  | requestFailure
  | success (data : ApiResponse)
  deriving DecidableEq, Repr

/-- `TrafficMonitor.get_route_with_traffic` (traffic_monitor.py lines 39-54):
`None` on a caught `RequestException` or a non-"OK" status, otherwise the
parsed route data.  A `PyError` raised inside `_parse_route_data` is *not*
caught (the `except` clause only matches `RequestException`), so it escapes
as the `Except.error` case. -/
def get_route_with_traffic (resp : HttpResult)
    (waypoints : Option (List String)) : Except PyError (Option RouteData) :=
  match resp with
  | .requestFailure => .ok none
  | .success data =>
    if data.status = "OK" then
      match _parse_route_data data waypoints with
      | .ok rd => .ok (some rd)
      | .error e => .error e
    else
      .ok none

/-- `datetime.now().replace(hour=h, minute=m, second=0, microsecond=0)` on a
timestamp in rational seconds since the epoch: floor to the start of the
day, then add `h` hours and `m` minutes. -/
def replaceTime (now : ℚ) (h m : ℕ) : ℚ :=
  86400 * (⌊now / 86400⌋ : ℤ) + 3600 * h + 60 * m

/-- `TrafficMonitor.calculate_departure_time` (traffic_monitor.py lines
100-126), with the arrival string already split into hour and minute.
`travel_minutes = travel_seconds / 60 + buffer_minutes` is float (here
exact rational) division; the returned `int(travel_minutes)` truncates
toward zero, which on this non-negative quantity is the floor;
`departure_time` subtracts the *un*truncated minutes. -/
def calculate_departure_time (total_duration_traffic : ℕ)
    (arrival_hour arrival_minute buffer_minutes : ℕ) (now : ℚ) : ℚ × ℤ :=
  let today0 := replaceTime now arrival_hour arrival_minute
  let today := if today0 < now then today0 + 86400 else today0
  let travel_minutes : ℚ :=
    (total_duration_traffic : ℚ) / 60 + (buffer_minutes : ℚ)
  let departure_time := today - 60 * travel_minutes
  (departure_time, ⌊travel_minutes⌋)

/-- `TrafficMonitor.analyze_traffic` (traffic_monitor.py lines 128-142),
reading `traffic_data["traffic_ratio"]` and the configured threshold. -/
def analyze_traffic (traffic_ratio threshold : ℚ) : String :=
  if threshold ≤ traffic_ratio then "🔴 Heavy traffic"
  else if (11 : ℚ) / 10 ≤ traffic_ratio then "🟡 Moderate traffic"
  else "🟢 Light traffic"

/-- Severity tier in the order light < moderate < heavy, read off the
string `analyze_traffic` returns. -/
def severityTier (s : String) : ℕ :=
  if s = "🔴 Heavy traffic" then 2
  else if s = "🟡 Moderate traffic" then 1
  else 0

/-- Evaluation of `_parse_route_data` on an empty routes list. -/
lemma parse_route_data_nil (st : String) (em : Option String)
    (wps : Option (List String)) :
    _parse_route_data ⟨st, [], em⟩ wps = Except.error PyError.indexError := rfl

/-- Evaluation of `_parse_route_data` when the first route has no legs. -/
lemma parse_route_data_noLegs (st summary : String) (em : Option String)
    (rs : List Route) (wps : Option (List String)) :
    _parse_route_data ⟨st, ⟨summary, []⟩ :: rs, em⟩ wps =
      Except.error PyError.indexError := rfl

/-- Evaluation of `_parse_route_data` when the first route has at least one
leg: the only remaining control point is the zero divisor. -/
lemma parse_route_data_cons (st summary : String) (em : Option String)
    (l0 : Leg) (ls : List Leg) (rs : List Route)
    (wps : Option (List String)) :
    _parse_route_data ⟨st, ⟨summary, l0 :: ls⟩ :: rs, em⟩ wps =
      if ((l0 :: ls).map Leg.duration).sum = 0 then
        Except.error PyError.zeroDivisionError
      else
        Except.ok
          { total_duration := ((l0 :: ls).map Leg.duration).sum,
            total_duration_traffic :=
              ((l0 :: ls).map
                fun leg => leg.duration_in_traffic.getD leg.duration).sum,
            total_distance := ((l0 :: ls).map Leg.distance).sum,
            summary := summary,
            waypoints :=
              match wps with
              | none => []
              | some [] => []
              | some w => parseStops w (l0 :: ls),
            start_address := l0.start_address,
            end_address := (ls.getLastD l0).end_address,
            traffic_ratio :=
              (Nat.cast
                  (((l0 :: ls).map
                    fun leg => leg.duration_in_traffic.getD leg.duration).sum) : ℚ) /
                (Nat.cast (((l0 :: ls).map Leg.duration).sum) : ℚ) } := rfl

/-- `calculate_departure_time` unfolded to its two components. -/
lemma calculate_departure_time_eq (dur hh mm buf : ℕ) (now : ℚ) :
    calculate_departure_time dur hh mm buf now =
      ((if replaceTime now hh mm < now then replaceTime now hh mm + 86400
          else replaceTime now hh mm) -
        60 * ((dur : ℚ) / 60 + (buf : ℚ)),
      ⌊(dur : ℚ) / 60 + (buf : ℚ)⌋) := rfl

/-- The truncated travel minutes are the Nat floor division plus the
buffer. -/
lemma floor_travel_minutes (dur buf : ℕ) :
    ⌊(dur : ℚ) / 60 + (buf : ℚ)⌋ = ((dur / 60 : ℕ) : ℤ) + (buf : ℤ) := by
  rw [Int.floor_add_nat]
  have h := Rat.floor_intCast_div_natCast (dur : ℤ) 60
  push_cast at h
  rw [h, Int.natCast_div]
  push_cast
  ring

/-- 17:00:00 of day 0 resolved to 18:00 stays on day 0. -/
lemma replaceTime_61200 : replaceTime 61200 18 0 = 64800 := by
  unfold replaceTime
  rw [show ⌊(61200 : ℚ) / 86400⌋ = 0 from by norm_num [Int.floor_eq_iff]]
  norm_num

/-- The tier of the classification, as a function of the two numeric
comparisons of `analyze_traffic`. -/
lemma severityTier_analyze (r th : ℚ) :
    severityTier (analyze_traffic r th) =
      if th ≤ r then 2 else if (11 : ℚ) / 10 ≤ r then 1 else 0 := by
  by_cases h1 : th ≤ r
  · simp [analyze_traffic, severityTier, h1]
  · by_cases h2 : (11 : ℚ) / 10 ≤ r
    · simp [analyze_traffic, severityTier, h1, h2]
    · simp [analyze_traffic, severityTier, h1, h2]

end TrafficMonitor

open SmartCommute TrafficMonitor

/-- C1: for every admitted poll tick with a valid decision, the DepartureAlert
is emitted if and only if `0 ≤ minutesUntilDeparture ≤ 5` (inclusive on both
ends) and the daily `departure_notified` flag is false; and emitting it sets
the flag to true. -/
theorem C1_departure_alert_iff (delivery_ok : Bool)
    (t ratio threshold now : ℚ) (s : AppState) :
    ((check_traffic_and_notify delivery_ok t ratio threshold now s).1 =
        some Notification.departureAlert ↔
      (0 ≤ t ∧ t ≤ 5 ∧ s.notification_sent_today = false)) ∧
    ((check_traffic_and_notify delivery_ok t ratio threshold now s).1 =
        some Notification.departureAlert →
      (check_traffic_and_notify delivery_ok t ratio threshold now s).2.notification_sent_today
        = true) := by
  unfold check_traffic_and_notify
  split_ifs with h1 h2 h3 h4 h5 <;>
    simp_all

/-- Witness for C1: at `minutesUntilDeparture = 5` (boundary inclusive, the
spec's scenario C) with the flag down, the alert fires and raises the flag. -/
theorem C1_departure_alert_iff_witness :
    (check_traffic_and_notify true 5 (3/2) (13/10) 0
        ⟨false, none⟩).1 = some Notification.departureAlert ∧
    (check_traffic_and_notify true 5 (3/2) (13/10) 0
        ⟨false, none⟩).2.notification_sent_today = true := by
  refine ⟨?_, ?_⟩
  · exact (C1_departure_alert_iff true 5 (3/2) (13/10) 0 ⟨false, none⟩).1.mpr
      (by norm_num)
  · exact (C1_departure_alert_iff true 5 (3/2) (13/10) 0 ⟨false, none⟩).2
      (by decide)

/-- C2: a tick in the reset window (hour 0, minute below 5) lowers the daily
flag, and from any flag-down state every subsequent sequence of ticks emits
DepartureAlert and LateWarning at most once combined: both branches are
guarded by and both set the single `notification_sent_today` flag. -/
theorem C2_at_most_one_per_day :
    (∀ (h m : ℕ) (s : AppState), h = 0 → m < 5 →
      (maybeReset h m s).notification_sent_today = false) ∧
    (∀ (ticks : List Tick) (s : AppState),
      s.notification_sent_today = false →
      countDepartureOrLate (runTicks ticks s).1 ≤ 1) := by
  constructor
  · intro h m s hh hm
    simp [maybeReset, hh, hm]
  · exact runTicks_flag_false

/-- Witness for C2: after a midnight reset, a concrete day of three ticks —
a late tick, then two departure-window ticks — fires exactly one of
DepartureAlert/LateWarning. -/
theorem C2_at_most_one_per_day_witness :
    countDepartureOrLate
      (runTicks [⟨true, -3, 1, 13/10, 0⟩, ⟨true, 4, 1, 13/10, 1⟩,
          ⟨true, 5, 1, 13/10, 2⟩]
        (maybeReset 0 3 ⟨true, none⟩)).1 ≤ 1 :=
  C2_at_most_one_per_day.2 _ _
    (C2_at_most_one_per_day.1 0 3 ⟨true, none⟩ rfl (by decide))

/-- C3: on every admitted tick with heavy traffic
(`traffic_ratio ≥ heavy_traffic_threshold`), `5 < minutesUntilDeparture ≤ 20`
and the flag down, an EarlyWarning is emitted and the state is left completely
unchanged (no guard flag is set), so the very next tick under the same
condition emits it again. -/
theorem C3_early_warning_repeats (ok : Bool) (t r th c : ℚ) (s : AppState)
    (hr : th ≤ r) (h5 : 5 < t) (h20 : t ≤ 20)
    (hs : s.notification_sent_today = false) :
    (check_traffic_and_notify ok t r th c s).1 = some Notification.earlyWarning ∧
    (check_traffic_and_notify ok t r th c s).2 = s ∧
    (check_traffic_and_notify ok t r th c
        (check_traffic_and_notify ok t r th c s).2).1 =
      some Notification.earlyWarning := by
  have hfirst : ∀ s' : AppState, s'.notification_sent_today = false →
      (check_traffic_and_notify ok t r th c s').1 =
          some Notification.earlyWarning ∧
        (check_traffic_and_notify ok t r th c s').2 = s' := by
    intro s' hs'
    unfold check_traffic_and_notify
    have hne : ¬(0 ≤ t ∧ t ≤ 5 ∧ s'.notification_sent_today = false) := by
      rintro ⟨-, hle, -⟩
      linarith
    rw [if_neg hne, if_pos ⟨hr, h5, h20, hs'⟩]
    exact ⟨rfl, rfl⟩
  obtain ⟨h1, h2⟩ := hfirst s hs
  refine ⟨h1, h2, ?_⟩
  rw [h2]
  exact (hfirst s hs).1

/-- Witness for C3: ratio 1.5 against threshold 1.3 at 10 minutes to
departure emits EarlyWarning twice in a row without touching the state. -/
theorem C3_early_warning_repeats_witness :
    (check_traffic_and_notify true 10 (3/2) (13/10) 0 ⟨false, none⟩).1 =
        some Notification.earlyWarning ∧
      (check_traffic_and_notify true 10 (3/2) (13/10) 0 ⟨false, none⟩).2 =
        ⟨false, none⟩ ∧
      (check_traffic_and_notify true 10 (3/2) (13/10) 0
          (check_traffic_and_notify true 10 (3/2) (13/10) 0
            ⟨false, none⟩).2).1 = some Notification.earlyWarning :=
  C3_early_warning_repeats true 10 (3/2) (13/10) 0 ⟨false, none⟩
    (by norm_num) (by norm_num) (by norm_num) rfl

/-- C4 counterexample: a tick whose DepartureAlert delivery fails
(`delivery_ok = false`) still sets `notification_sent_today` to true — the
claim that the flag remains false after a failed tick is refuted.  The source
calls `asyncio.run(self._send_departure_notification(...))`, discards the
delivery result, and then unconditionally runs
`self.notification_sent_today = True`. -/
theorem C4_counterexample :
    (check_traffic_and_notify false 3 1 (13/10) 0
        ⟨false, none⟩).2.notification_sent_today = true := by
  decide

/-- C4 amended: the delivery outcome has no effect whatsoever on the
emission or on the daily state — the state is advanced (the flag set)
whether or not the notification was delivered, so a failed DepartureAlert or
LateWarning is never retried on a later tick. -/
theorem C4_state_ignores_delivery (ok ok' : Bool) (t r th c : ℚ)
    (s : AppState) :
    check_traffic_and_notify ok t r th c s =
      check_traffic_and_notify ok' t r th c s := rfl

/-- C5 counterexample: with `duration_with_traffic = 90 s`, arrival 18:00,
buffer 0 and `now` = 17:00:00 of day 0 (61200 s), the code returns travel
minutes `int(90/60 + 0) = 1`, not `ceil(90/60) + 0 = 2`, and the departure
timestamp `64710` (90 exact seconds before the 64800 target), which is
neither `target − 2 min = 64680` (the claim's value) nor
`target − (returned minutes) = 64740`. -/
theorem C5_counterexample :
    (calculate_departure_time 90 18 0 0 61200).2 ≠ ⌈(90 : ℚ) / 60⌉ + (0 : ℤ) ∧
    (calculate_departure_time 90 18 0 0 61200).1 ≠
      replaceTime 61200 18 0 -
        60 * (((calculate_departure_time 90 18 0 0 61200).2 : ℚ) + (0 : ℚ)) ∧
    replaceTime 61200 18 0 = 64800 := by
  have h2 : (calculate_departure_time 90 18 0 0 61200).2 = 1 := by
    rw [calculate_departure_time_eq]
    norm_num [Int.floor_eq_iff]
  have h1 : (calculate_departure_time 90 18 0 0 61200).1 = 64710 := by
    rw [calculate_departure_time_eq]
    simp only [replaceTime_61200]
    rw [if_neg (by norm_num)]
    norm_num
  have hc : ⌈(90 : ℚ) / 60⌉ = 2 := by norm_num [Int.ceil_eq_iff]
  refine ⟨?_, ?_, replaceTime_61200⟩
  · rw [h2, hc]
    decide
  · rw [h1, h2, replaceTime_61200]
    norm_num

/-- C5 amended: the target arrival is the desired time-of-day on `now`'s
calendar date, rolled forward one day exactly when strictly before `now`
(never in the past); but the returned travel minutes are
`floor(duration_with_traffic / 60) + buffer` (Python `int()` truncation of
float division, not a ceiling), and the departure timestamp is the target
minus the *exact* `duration_with_traffic` seconds plus `buffer` minutes,
not the target minus the returned rounded minutes. -/
theorem C5_departure_calculation (dur hh mm buf : ℕ) (now : ℚ) :
    (calculate_departure_time dur hh mm buf now).1 =
      (if replaceTime now hh mm < now then replaceTime now hh mm + 86400
        else replaceTime now hh mm) - ((dur : ℚ) + 60 * (buf : ℚ)) ∧
    (calculate_departure_time dur hh mm buf now).2 =
      ((dur / 60 : ℕ) : ℤ) + (buf : ℤ) ∧
    now ≤ (if replaceTime now hh mm < now then replaceTime now hh mm + 86400
        else replaceTime now hh mm) := by
  rw [calculate_departure_time_eq]
  refine ⟨?_, floor_travel_minutes dur buf, ?_⟩
  · show _ - 60 * ((dur : ℚ) / 60 + (buf : ℚ)) = _
    split_ifs <;> ring
  · by_cases h : replaceTime now hh mm < now
    · rw [if_pos h]
      have hfl : now / 86400 - 1 < (⌊now / 86400⌋ : ℚ) := Int.sub_one_lt_floor _
      have hx : (86400 : ℚ) * (now / 86400) = now := by ring
      have hh0 : (0 : ℚ) ≤ 3600 * (hh : ℚ) := by positivity
      have hm0 : (0 : ℚ) ≤ 60 * (mm : ℚ) := by positivity
      unfold replaceTime
      linarith [hfl, hx, hh0, hm0]
    · rw [if_neg h]
      linarith [not_lt.mp h]

/-- C6 counterexample: a response with `status = "OK"` and an empty `routes`
list makes `_parse_route_data` evaluate `data["routes"][0]`, raising an
uncaught IndexError past the `get_route_with_traffic` boundary (its `except`
clause only catches `requests.exceptions.RequestException`) — refuting
"never raises an exception past its boundary for any response shape". -/
theorem C6_counterexample :
    get_route_with_traffic (HttpResult.success ⟨"OK", [], none⟩) none =
      Except.error PyError.indexError := rfl

/-- C6 amended: a request-level failure or a non-"OK" status does return the
error value `None` without raising; but a status-"OK" response with an empty
routes list (or a first route with no legs) raises an uncaught IndexError
past the boundary. -/
theorem C6_sampling_errors :
    (∀ wps, get_route_with_traffic HttpResult.requestFailure wps =
      Except.ok none) ∧
    (∀ (data : ApiResponse) (wps : Option (List String)),
      data.status ≠ "OK" →
      get_route_with_traffic (HttpResult.success data) wps = Except.ok none) ∧
    (∀ (data : ApiResponse) (wps : Option (List String)),
      data.status = "OK" → data.routes = [] →
      get_route_with_traffic (HttpResult.success data) wps =
        Except.error PyError.indexError) ∧
    (∀ (data : ApiResponse) (wps : Option (List String)) (route : Route)
        (rs : List Route),
      data.status = "OK" → data.routes = route :: rs → route.legs = [] →
      get_route_with_traffic (HttpResult.success data) wps =
        Except.error PyError.indexError) := by
  refine ⟨fun _ => rfl, ?_, ?_, ?_⟩
  · intro data wps h
    simp [get_route_with_traffic, h]
  · intro data wps h hr
    simp [get_route_with_traffic, h, _parse_route_data, hr]
  · intro data wps route rs h hr hl
    simp [get_route_with_traffic, h, _parse_route_data, hr, hl]

/-- Witness for C6: the three error shapes at concrete responses. -/
theorem C6_sampling_errors_witness :
    get_route_with_traffic HttpResult.requestFailure none = Except.ok none ∧
    get_route_with_traffic
        (HttpResult.success ⟨"ZERO_RESULTS", [], some "no route"⟩) none =
      Except.ok none ∧
    get_route_with_traffic (HttpResult.success ⟨"OK", [], some "m"⟩)
        (some ["A"]) = Except.error PyError.indexError ∧
    get_route_with_traffic (HttpResult.success ⟨"OK", [⟨"s", []⟩], none⟩)
        none = Except.error PyError.indexError :=
  ⟨C6_sampling_errors.1 none,
    C6_sampling_errors.2.1 ⟨"ZERO_RESULTS", [], some "no route"⟩ none
      (by decide),
    C6_sampling_errors.2.2.1 ⟨"OK", [], some "m"⟩ (some ["A"]) rfl rfl,
    C6_sampling_errors.2.2.2 ⟨"OK", [⟨"s", []⟩], none⟩ none ⟨"s", []⟩ []
      rfl rfl rfl⟩

/-- C7 counterexample: a status-"OK" response whose single leg has duration
0 is not rejected; `traffic_ratio = total_duration_traffic / total_duration`
is evaluated with divisor 0 and raises an uncaught ZeroDivisionError —
refuting "rejected before reaching the departure calculator" and "its error
branch is unreachable for every response that produces a sample". -/
theorem C7_counterexample :
    _parse_route_data ⟨"OK", [⟨"sum", [⟨0, none, 0, "a", "b"⟩]⟩], none⟩
        none = Except.error PyError.zeroDivisionError := rfl

/-- C7 amended: there is no rejection of zero-base-duration samples — a
parsed route whose legs' total plain duration is zero makes the ratio
division raise ZeroDivisionError; only the samples that are actually
produced have a strictly positive divisor, with
`traffic_ratio = total_duration_traffic / total_duration`. -/
theorem C7_zero_duration_raises :
    (∀ (st summary : String) (em : Option String) (l0 : Leg) (ls : List Leg)
        (rs : List Route) (wps : Option (List String)),
      (((l0 :: ls) : List Leg).map Leg.duration).sum = 0 →
      _parse_route_data ⟨st, ⟨summary, l0 :: ls⟩ :: rs, em⟩ wps =
        Except.error PyError.zeroDivisionError) ∧
    (∀ (data : ApiResponse) (wps : Option (List String)) (rd : RouteData),
      _parse_route_data data wps = Except.ok rd →
      0 < rd.total_duration ∧
      rd.traffic_ratio =
        (rd.total_duration_traffic : ℚ) / (rd.total_duration : ℚ)) := by
  constructor
  · intro st summary em l0 ls rs wps hsum
    rw [parse_route_data_cons, if_pos hsum]
  · intro data wps rd hok
    obtain ⟨st, routes, em⟩ := data
    rcases routes with _ | ⟨⟨summary, legs⟩, rs⟩
    · rw [parse_route_data_nil] at hok
      exact Except.noConfusion hok
    · rcases legs with _ | ⟨l0, ls⟩
      · rw [parse_route_data_noLegs] at hok
        exact Except.noConfusion hok
      · rw [parse_route_data_cons] at hok
        by_cases hz : (((l0 :: ls) : List Leg).map Leg.duration).sum = 0
        · rw [if_pos hz] at hok
          exact Except.noConfusion hok
        · rw [if_neg hz] at hok
          injection hok with h
          subst h
          exact ⟨Nat.pos_of_ne_zero hz, rfl⟩

/-- Witness for C7: the zero-duration response raises, and the 60-second
sample is produced with divisor 60 and ratio 60/60. -/
theorem C7_zero_duration_raises_witness :
    _parse_route_data ⟨"OK", [⟨"s2", [⟨0, none, 7, "a", "b"⟩]⟩], none⟩
        none = Except.error PyError.zeroDivisionError ∧
    (0 < 60 ∧ (1 : ℚ) = ((60 : ℕ) : ℚ) / ((60 : ℕ) : ℚ)) :=
  ⟨C7_zero_duration_raises.1 "OK" "s2" none ⟨0, none, 7, "a", "b"⟩ [] [] none
      rfl,
    C7_zero_duration_raises.2
      ⟨"OK", [⟨"s3", [⟨60, none, 100, "w", "h"⟩]⟩], none⟩ none
      ⟨60, 60, 100, "s3", [], "w", "h", 1⟩
      (by rw [parse_route_data_cons]; norm_num)⟩

/-- C8: for every fixed threshold — including one misconfigured below 1.1 —
the classification is monotone in the traffic ratio (tier order
light < moderate < heavy), and a ratio at or above the threshold is always
classified heavy, because that comparison is evaluated first. -/
theorem C8_severity_monotone :
    (∀ (threshold r1 r2 : ℚ), r1 ≤ r2 →
      severityTier (analyze_traffic r1 threshold) ≤
        severityTier (analyze_traffic r2 threshold)) ∧
    (∀ (threshold r : ℚ), threshold ≤ r →
      analyze_traffic r threshold = "🔴 Heavy traffic") := by
  constructor
  · intro th r1 r2 h12
    rw [severityTier_analyze, severityTier_analyze]
    split_ifs <;> first | omega | linarith
  · intro th r h
    unfold analyze_traffic
    rw [if_pos h]

/-- Witness for C8: monotonicity across the moderate boundary with a
misconfigured threshold below 1.1 is fine too, but here at the default 1.3
threshold; and ratio 1.5 at threshold 1.3 is heavy. -/
theorem C8_severity_monotone_witness :
    severityTier (analyze_traffic 1 (13 / 10)) ≤
      severityTier (analyze_traffic (6 / 5) (13 / 10)) ∧
    analyze_traffic (3 / 2) (13 / 10) = "🔴 Heavy traffic" :=
  ⟨C8_severity_monotone.1 (13 / 10) 1 (6 / 5) (by norm_num),
    C8_severity_monotone.2 (13 / 10) (3 / 2) (by norm_num)⟩

/-- C9 counterexample: a parsed route with `n = 3` waypoints but only
`k = 2` legs (so `k ≠ n + 1`).  The claim says the waypoints beyond the
available leg count ("B", "C") are still reported with an unknown-marker
address; the code instead iterates over `legs[:-1]` and produces exactly one
stop, `"A"` — the extra waypoints are dropped entirely, not reported. -/
theorem C9_counterexample :
    (_parse_route_data
        ⟨"OK", [⟨"sum", [⟨60, none, 5, "w", "x"⟩, ⟨60, none, 5, "x", "h"⟩]⟩],
          none⟩
        (some ["A", "B", "C"])).map
      (fun rd => rd.waypoints.map Stop.address) = Except.ok ["A"] := rfl

/-- C9 amended: the stops list has one entry per leg except the last
(`legs[:-1]`), pairing the i-th leg with waypoint i; a leg index beyond the
waypoint count gets address "Unknown"; waypoints beyond `len(legs) - 1` are
dropped, not reported. -/
theorem C9_stops_pairing :
    (∀ (wps : List String) (legs : List Leg),
      (parseStops wps legs).length = legs.length - 1) ∧
    (∀ (wps : List String) (legs : List Leg) (i : ℕ),
      i < legs.length - 1 →
      ((parseStops wps legs).getD i ⟨"", 0, 0⟩).address =
        wps.getD i "Unknown") ∧
    (∀ (st summary : String) (em : Option String) (l0 : Leg) (ls : List Leg)
        (rs : List Route) (w : String) (ws : List String) (rd : RouteData),
      _parse_route_data ⟨st, ⟨summary, l0 :: ls⟩ :: rs, em⟩
          (some (w :: ws)) = Except.ok rd →
      rd.waypoints = parseStops (w :: ws) (l0 :: ls)) := by
  refine ⟨?_, ?_, ?_⟩
  · intro wps legs
    simp [parseStops]
  · intro wps legs i hi
    have hlen : i < legs.dropLast.length := by
      simpa [List.length_dropLast] using hi
    obtain ⟨x, hx⟩ : ∃ x, legs.dropLast[i]? = some x :=
      ⟨_, List.getElem?_eq_getElem hlen⟩
    simp [parseStops, List.getD_eq_getElem?_getD, List.getElem?_map,
      List.getElem?_enum, hx]
  · intro st summary em l0 ls rs w ws rd hok
    rw [parse_route_data_cons] at hok
    by_cases hz : (((l0 :: ls) : List Leg).map Leg.duration).sum = 0
    · rw [if_pos hz] at hok
      exact Except.noConfusion hok
    · rw [if_neg hz] at hok
      injection hok with h
      subst h
      rfl

/-- Witness for C9: two legs and three waypoints give one stop, addressed
"A"; three legs and one waypoint address the second stop "Unknown"; and a
parsed sample's waypoints are exactly `parseStops`. -/
theorem C9_stops_pairing_witness :
    (parseStops ["A", "B", "C"]
      [⟨60, some 70, 5, "w", "x"⟩, ⟨80, none, 7, "x", "h"⟩]).length = 1 ∧
    ((parseStops ["P"]
        [⟨60, some 70, 5, "w", "x"⟩, ⟨80, none, 7, "x", "y"⟩,
          ⟨90, none, 9, "y", "h"⟩]).getD 1 ⟨"", 0, 0⟩).address = "Unknown" ∧
    (⟨120, 120, 12, "s4", [⟨"P", 60, 5⟩], "w", "h", 1⟩ :
        RouteData).waypoints =
      parseStops ["P"] [⟨60, none, 5, "w", "x"⟩, ⟨60, none, 7, "x", "h"⟩] :=
  ⟨C9_stops_pairing.1 ["A", "B", "C"]
      [⟨60, some 70, 5, "w", "x"⟩, ⟨80, none, 7, "x", "h"⟩],
    C9_stops_pairing.2.1 ["P"]
      [⟨60, some 70, 5, "w", "x"⟩, ⟨80, none, 7, "x", "y"⟩,
        ⟨90, none, 9, "y", "h"⟩] 1 (by norm_num),
    C9_stops_pairing.2.2 "OK" "s4" none ⟨60, none, 5, "w", "x"⟩
      [⟨60, none, 7, "x", "h"⟩] [] "P" []
      ⟨120, 120, 12, "s4", [⟨"P", 60, 5⟩], "w", "h", 1⟩
      (by rw [parse_route_data_cons]; norm_num [parseStops, List.enum,
        List.enumFrom])⟩

/-- C10: a leg lacking `duration_in_traffic` contributes its plain
`duration` to the with-traffic total (`leg.get("duration_in_traffic",
leg["duration"])`), so if every leg lacks traffic data, the produced
sample's two totals coincide, its ratio is exactly 1, and the
classification is light for every threshold above 1.1. -/
theorem C10_missing_traffic_defaults (st summary : String)
    (em : Option String) (l0 : Leg) (ls : List Leg) (rs : List Route)
    (wps : Option (List String)) (rd : RouteData)
    (hno : ∀ leg ∈ ((l0 :: ls) : List Leg), leg.duration_in_traffic = none)
    (hok : _parse_route_data ⟨st, ⟨summary, l0 :: ls⟩ :: rs, em⟩ wps =
      Except.ok rd) :
    rd.total_duration_traffic = rd.total_duration ∧
    rd.traffic_ratio = 1 ∧
    ∀ threshold : ℚ, 11 / 10 < threshold →
      analyze_traffic rd.traffic_ratio threshold = "🟢 Light traffic" := by
  have hmap : (((l0 :: ls) : List Leg).map
        fun leg => leg.duration_in_traffic.getD leg.duration) =
      ((l0 :: ls) : List Leg).map Leg.duration :=
    List.map_congr_left (fun leg hleg => by rw [hno leg hleg]; rfl)
  rw [parse_route_data_cons] at hok
  by_cases hz : (((l0 :: ls) : List Leg).map Leg.duration).sum = 0
  · rw [if_pos hz] at hok
    exact Except.noConfusion hok
  · rw [if_neg hz] at hok
    injection hok with h
    subst h
    have htot : (((l0 :: ls) : List Leg).map
          fun leg => leg.duration_in_traffic.getD leg.duration).sum =
        (((l0 :: ls) : List Leg).map Leg.duration).sum :=
      congrArg List.sum hmap
    have hr : (Nat.cast ((((l0 :: ls) : List Leg).map
          fun leg => leg.duration_in_traffic.getD leg.duration).sum) : ℚ) /
        (Nat.cast ((((l0 :: ls) : List Leg).map Leg.duration).sum) : ℚ) = 1 := by
      rw [htot]
      exact div_self (by exact_mod_cast hz)
    refine ⟨htot, hr, ?_⟩
    intro th hth
    show analyze_traffic _ th = _
    rw [show (⟨_, _, _, _, _, _, _, _⟩ : RouteData).traffic_ratio = 1 from hr]
    unfold analyze_traffic
    rw [if_neg (by linarith), if_neg (by norm_num)]

/-- Witness for C10: a single 60-second leg with no traffic field yields
equal totals, ratio 1, and a light classification at threshold 1.3. -/
theorem C10_missing_traffic_defaults_witness :
    (60 : ℕ) = 60 ∧ (1 : ℚ) = 1 ∧
    analyze_traffic 1 (13 / 10) = "🟢 Light traffic" :=
  have h := C10_missing_traffic_defaults "OK" "s5" none
    ⟨60, none, 100, "w", "h"⟩ [] [] none
    ⟨60, 60, 100, "s5", [], "w", "h", 1⟩ (by simp)
    (by rw [parse_route_data_cons]; norm_num)
  ⟨h.1, h.2.1, h.2.2 (13 / 10) (by norm_num)⟩
